import Mathlib

/-!
# Verification of the profile-section subsystem

A shallow embedding of the profile-section and section-image subsystem of
the backend (src/user/models.py, src/user/views.py, src/user/signals.py),
together with proofs about its behaviour.

Modelling conventions:
* Python dict-shaped section records become the structure `ProfileSection`.
* Timestamps (`timezone.now().isoformat()` strings, `auto_now_add`
  datetimes) are modelled as natural numbers supplied by the caller or by a
  monotone counter; only their ordering and equality matter here.
* `uuid.uuid4()` calls are modelled by an id supply passed as a parameter;
  freshness/distinctness of generated uuids is a hypothesis where needed.
* The `SectionImage` database table plus the binary file storage backing
  its `ImageField` become the state record `ImageStore`.  Following the
  framework's semantics, deleting a model instance or a queryset does NOT
  remove the underlying file from storage; only an explicit
  `FieldFile.delete()` does.
* Uploaded binary images are identified by `Nat` tokens.
* Request handlers become functions returning `Except ApiError ...`;
  profile resolution (`get_or_create`) and admin target-user lookup happen
  upstream of the modelled bodies where noted.
-/

/-- One entry of `Profile.sections` (a JSON dict in the source):
`{'id': ..., 'title': ..., 'content': ..., 'images': [],
  'created_at': ..., 'updated_at': ...}`. -/
structure ProfileSection where
  id : String
  title : String
  content : String
  images : List String
  created_at : Nat
  updated_at : Nat
deriving Repr, DecidableEq

/-- The `Profile` model (src/user/models.py).  A profile is keyed by its
owning user (`OneToOneField`), modelled as `userId`. `sections` is the
JSONField list. -/
structure Profile where
  userId : Nat
  bio : String
  location : String
  website : String
  joined_date : Option Nat
  sections : List ProfileSection
deriving Repr, DecidableEq

/-- A `SectionImage` row (src/user/models.py).  `profileId` is the foreign
key to the owning profile (keyed by its user), `image` the reference to
the stored binary payload, `created_at` from `auto_now_add`. -/
structure SectionImage where
  id : Nat
  profileId : Nat
  section_id : String
  image : Nat
  caption : String
  created_at : Nat
deriving Repr, DecidableEq

/-- The `SectionImage` table together with the binary file storage, an id
sequence and a monotone clock for `auto_now_add`. `rows` is kept in
creation order. `files` is the set of payload references currently present
in binary storage. -/
structure ImageStore where
  rows : List SectionImage
  files : List Nat
  nextId : Nat
  nextTime : Nat
deriving Repr, DecidableEq

/-- Error responses produced by the handlers.  `forbidden` is included to
distinguish not-found masking from an authorization error. -/
inductive ApiError where
  | notFound (msg : String)
  | badRequest (msg : String)
  | forbidden
deriving Repr, DecidableEq

/-- HTTP method of the two-method image-detail handlers. -/
inductive Method where
  | put
  | delete
deriving Repr, DecidableEq

/-! ## Stable sorting by a natural-number key

Python's `list.sort(key=...)` is a stable sort; a stable sort by a `Nat`
key is uniquely determined, so the insertion sort below is an exact model
of it. -/

/-- Insert `x` before the first element whose key is `≥ key x`
(stable insertion). -/
def insertByKey (key : α → Nat) (x : α) : List α → List α
  | [] => [x]
  | y :: ys => if key x ≤ key y then x :: y :: ys else y :: insertByKey key x ys

/-- Stable insertion sort by a `Nat` key; models Python `list.sort(key=...)`. -/
def sortByKey (key : α → Nat) : List α → List α
  | [] => []
  | x :: xs => insertByKey key x (sortByKey key xs)

/-! ## Profile methods (src/user/models.py) -/

/-- `Profile.add_section(title, content)`: builds the new section dict with
a fresh uuid (`newId`) and current time (`now`), appends it and returns it. -/
def Profile.add_section (p : Profile) (newId : String) (now : Nat)
    (title content : String) : Profile × ProfileSection :=
  let new_section : ProfileSection :=
    { id := newId, title := title, content := content, images := [],
      created_at := now, updated_at := now }
  ({ p with sections := p.sections ++ [new_section] }, new_section)

/-- `Profile.get_section_by_id(section_id)`: linear scan, first match. -/
def Profile.get_section_by_id (p : Profile) (section_id : String) :
    Option ProfileSection :=
  p.sections.find? (fun s => s.id == section_id)

/-- Helper for `update_section`: update the first entry matching
`section_id` (`section.update(kwargs)` touches only the supplied keys,
then `updated_at` is refreshed), returning the new list and the updated
entry. -/
def updateFirstSection (section_id : String) (title? content? : Option String)
    (now : Nat) : List ProfileSection → Option (List ProfileSection × ProfileSection)
  | [] => none
  | s :: rest =>
    if s.id == section_id then
      let s1 := { s with title := title?.getD s.title,
                         content := content?.getD s.content, updated_at := now }
      some (s1 :: rest, s1)
    else
      match updateFirstSection section_id title? content? now rest with
      | some (rest1, s1) => some (s :: rest1, s1)
      | none => none

/-- `Profile.update_section(section_id, **kwargs)`: the view only ever
passes `title` and/or `content` in `kwargs`. Returns `none` when no
section matches. -/
def Profile.update_section (p : Profile) (section_id : String)
    (title? content? : Option String) (now : Nat) :
    Option (Profile × ProfileSection) :=
  (updateFirstSection section_id title? content? now p.sections).map
    (fun q => ({ p with sections := q.1 }, q.2))

/-- `Profile.delete_section(section_id)`: keeps the entries whose id
differs. -/
def Profile.delete_section (p : Profile) (section_id : String) : Profile :=
  { p with sections := p.sections.filter (fun s => !(s.id == section_id)) }

/-- The rank map of `Profile.reorder_sections`:
`order_map = {section_id: i for i, section_id in enumerate(new_order)}`,
a dict comprehension in which a duplicated key keeps its LAST index, and
`order_map.get(id, 999)`.  `lastIdx?` returns the index of the last
occurrence. -/
def lastIdx? (sid : String) : List String → Option Nat
  | [] => none
  | a :: l =>
    match lastIdx? sid l with
    | some i => some (i + 1)
    | none => if a == sid then some 0 else none

/-- `order_map.get(x.get('id'), 999)`. -/
def orderMapGet (new_order : List String) (sid : String) : Nat :=
  (lastIdx? sid new_order).getD 999

/-- `Profile.reorder_sections(new_order)`: stable sort of the section list
by `order_map.get(id, 999)`. -/
def Profile.reorder_sections (p : Profile) (new_order : List String) : Profile :=
  { p with sections :=
      sortByKey (fun s => orderMapGet new_order s.id) p.sections }

/-- The six canonical `(title, content)` pairs of
`Profile.create_default_sections`. -/
def defaultSectionData : List (String × String) :=
  [("Early Childhood",
    "Share your early childhood memories, experiences, and stories that shaped who you are today."),
   ("Family",
    "Tell us about your family - parents, siblings, relatives, and the special moments you\x27ve shared together."),
   ("Education",
    "Describe your educational journey - schools, teachers, subjects you loved, and how education shaped your life."),
   ("Society & Community",
    "Share your involvement in community activities, volunteer work, social causes, and how you\x27ve contributed to society."),
   ("Professional Experience",
    "Document your career journey, achievements, challenges overcome, and lessons learned in your professional life."),
   ("Story Telling",
    "Share your personal stories, anecdotes, life lessons, and experiences that others might find inspiring or valuable.")]

/-- `Profile.create_default_sections()`: replaces the whole list with the
six canonical sections, each with a fresh uuid (`ids i` for the i-th) and
current time; returns the new list. -/
def Profile.create_default_sections (p : Profile) (ids : Nat → String)
    (now : Nat) : Profile × List ProfileSection :=
  let sections := defaultSectionData.enum.map (fun q =>
    ({ id := ids q.1, title := q.2.1, content := q.2.2, images := [],
       created_at := now, updated_at := now } : ProfileSection))
  ({ p with sections := sections }, sections)

/-- `Profile.reset_to_default_sections()` simply calls
`create_default_sections`. -/
def Profile.reset_to_default_sections (p : Profile) (ids : Nat → String)
    (now : Nat) : Profile × List ProfileSection :=
  p.create_default_sections ids now

/-- A `Profile` as freshly constructed by `Profile.objects.create(user=u)`
or by the create branch of `Profile.objects.get_or_create(user=u)`: all
scalar fields at their model defaults, `sections` at the JSONField default
`list` (empty). -/
def emptyProfile (userId : Nat) : Profile :=
  { userId := userId, bio := "", location := "", website := "",
    joined_date := none, sections := [] }

/-- `Profile.objects.get_or_create(user=...)` as invoked by the view entry
points: fetch the profile for the user, or create a fresh (empty) one.
Returns the database, the profile and the `created` flag.  Note that no
signal fires on `Profile` creation (the bootstrap signal is attached to
`User` creation only, see `create_user_profile`). -/
def getOrCreateProfile (db : List Profile) (userId : Nat) :
    List Profile × Profile × Bool :=
  match db.find? (fun q => q.userId == userId) with
  | some p => (db, p, false)
  | none => (db ++ [emptyProfile userId], emptyProfile userId, true)

/-- The `post_save` signal handler `create_user_profile`
(src/user/signals.py): when a `User` row is created, create its `Profile`
and immediately call `create_default_sections` on it. -/
def create_user_profile (userId : Nat) (ids : Nat → String) (now : Nat) :
    Profile :=
  ((emptyProfile userId).create_default_sections ids now).1

/-! ## Image store primitives

These model the ORM and file-storage operations used by the image
handlers.  Framework semantics worth stating explicitly:
`Model.objects.create(image=f)` saves the uploaded file into storage and
inserts the row; `FieldFile.delete()` removes the file from storage;
`instance.delete()` and `QuerySet.delete()` remove rows but do NOT remove
the files referenced by them from storage. -/

/-- `SectionImage.objects.create(profile=..., section_id=..., image=...,
caption=...)`: store the payload, insert the row (fresh pk, creation
time). -/
def ImageStore.createImage (st : ImageStore) (profileId : Nat)
    (section_id : String) (payload : Nat) (caption : String) :
    ImageStore × SectionImage :=
  let row : SectionImage :=
    { id := st.nextId, profileId := profileId, section_id := section_id,
      image := payload, caption := caption, created_at := st.nextTime }
  ({ rows := st.rows ++ [row], files := st.files ++ [payload],
     nextId := st.nextId + 1, nextTime := st.nextTime + 1 }, row)

/-- `SectionImage.objects.filter(profile=p, section_id=s).delete()`:
removes the matching rows.  A queryset delete does not touch file
storage. -/
def ImageStore.bulkDeleteRows (st : ImageStore) (profileId : Nat)
    (section_id : String) : ImageStore :=
  let keep := fun (r : SectionImage) =>
    !(r.profileId == profileId && r.section_id == section_id)
  { st with rows := st.rows.filter keep }

/-- `image.image.delete()`: remove the binary payload from storage. -/
def ImageStore.deleteFile (st : ImageStore) (payload : Nat) : ImageStore :=
  { st with files := st.files.filter (fun f => !(f == payload)) }

/-- `image.delete()`: remove the row (by pk); file storage untouched. -/
def ImageStore.deleteRow (st : ImageStore) (rowId : Nat) : ImageStore :=
  { st with rows := st.rows.filter (fun r => !(r.id == rowId)) }

/-- `SectionImage.objects.filter(profile=p, section_id=s)`: the rows of a
given (profile, section) pair, in table (creation) order. -/
def ImageStore.imagesFor (st : ImageStore) (profileId : Nat)
    (section_id : String) : List SectionImage :=
  st.rows.filter (fun r => r.profileId == profileId && r.section_id == section_id)

/-- The creation loop shared by the upload handlers:
`for i, image in enumerate(images): caption = captions[i] if i < len(captions) else ''`
followed by `SectionImage.objects.create(...)`, collecting
`created_images`.  `i` is the running index. -/
def createRows (profileId : Nat) (section_id : String)
    (captions : List String) :
    ImageStore → Nat → List Nat → ImageStore × List SectionImage
  | st, _, [] => (st, [])
  | st, i, img :: rest =>
    let pr := st.createImage profileId section_id img (captions.getD i "")
    let pr2 := createRows profileId section_id captions pr.1 (i + 1) rest
    (pr2.1, pr.2 :: pr2.2)

/-- Well-formedness of an image store as maintained by the handlers: rows
are in creation order (`created_at` weakly increasing) and every row
predates the clock. -/
def ImageStore.WF (st : ImageStore) : Prop :=
  List.Pairwise (fun a b => a.created_at ≤ b.created_at) st.rows ∧
    ∀ r ∈ st.rows, r.created_at < st.nextTime

/-! ## Request handlers (src/user/views.py)

Each handler body is modelled from the point where the target `Profile`
has been resolved (`Profile.objects.get_or_create` for the self routes;
`User.objects.get(id=user_id)` followed by `get_or_create` for the admin
routes — an unknown target user 404s upstream of the modelled body). -/

/-- `upload_section_images(request, section_id)` (self route, lines
461-499): 404 when the section is not in the profile's list; 400 when no
image is supplied; otherwise delete all existing rows of the
(profile, section) pair and create one row per supplied image, returning
the created rows. -/
def upload_section_images (p : Profile) (st : ImageStore)
    (section_id : String) (images : List Nat) (captions : List String) :
    Except ApiError (ImageStore × List SectionImage) :=
  match p.get_section_by_id section_id with
  | none => .error (.notFound "Section not found")
  | some _ =>
    if images.isEmpty then .error (.badRequest "No images provided")
    else
      let st1 := st.bulkDeleteRows p.userId section_id
      let pr := createRows p.userId section_id captions st1 0 images
      .ok (pr.1, pr.2)

/-- `admin_upload_user_section_images(request, user_id, section_id)`
(admin route, lines 961-1004): same validation, but existing rows are NOT
deleted; returns all images of the section after insertion, ordered by
`created_at`. -/
def admin_upload_user_section_images (p : Profile) (st : ImageStore)
    (section_id : String) (images : List Nat) (captions : List String) :
    Except ApiError (ImageStore × List SectionImage) :=
  match p.get_section_by_id section_id with
  | none => .error (.notFound "Section not found")
  | some _ =>
    if images.isEmpty then .error (.badRequest "No images provided")
    else
      let pr := createRows p.userId section_id captions st 0 images
      let all_images :=
        sortByKey (fun r => r.created_at) (pr.1.imagesFor p.userId section_id)
      .ok (pr.1, all_images)

/-- `section_image_detail(request, image_id)` (self route, lines 502-528):
look the image up scoped to the requester's own profile
(`SectionImage.objects.get(id=image_id, profile__user=request.user)`);
outside that scope → 404 "Image not found".  PUT updates the caption
(default empty); DELETE removes the payload from storage, then the row. -/
def section_image_detail (st : ImageStore) (requesterId : Nat)
    (image_id : Nat) (m : Method) (caption : String) :
    Except ApiError (ImageStore × Option SectionImage) :=
  match st.rows.find? (fun r => r.id == image_id && r.profileId == requesterId) with
  | none => .error (.notFound "Image not found")
  | some img =>
    match m with
    | .put =>
      let updated := { img with caption := caption }
      let newRows := st.rows.map (fun r => if r.id == image_id then updated else r)
      .ok ({ st with rows := newRows }, some updated)
    | .delete =>
      let st1 := st.deleteFile img.image
      let st2 := st1.deleteRow img.id
      .ok (st2, none)

/-- `admin_user_section_image_detail(request, user_id, section_id,
image_id)` (admin route, lines 1007-1034): identical to the self variant
except the lookup is scoped by target user AND section id. -/
def admin_user_section_image_detail (st : ImageStore) (targetUserId : Nat)
    (section_id : String) (image_id : Nat) (m : Method) (caption : String) :
    Except ApiError (ImageStore × Option SectionImage) :=
  match st.rows.find? (fun r =>
      r.id == image_id && r.profileId == targetUserId &&
        r.section_id == section_id) with
  | none => .error (.notFound "Image not found")
  | some img =>
    match m with
    | .put =>
      let updated := { img with caption := caption }
      let newRows := st.rows.map (fun r => if r.id == image_id then updated else r)
      .ok ({ st with rows := newRows }, some updated)
    | .delete =>
      let st1 := st.deleteFile img.image
      let st2 := st1.deleteRow img.id
      .ok (st2, none)

/-- The DELETE branch of `profile_section_detail(request, section_id)`
(lines 407-437): 404 when the section is absent, otherwise
`profile.delete_section(section_id)`; the image store is not touched. -/
def profile_section_detail_delete (p : Profile) (st : ImageStore)
    (section_id : String) : Except ApiError (Profile × ImageStore) :=
  match p.get_section_by_id section_id with
  | none => .error (.notFound "Section not found")
  | some _ => .ok (p.delete_section section_id, st)

/-- `reorder_sections(request)` view (lines 440-456): 400 on an empty
`section_ids` list, otherwise `profile.reorder_sections(new_order)`. -/
def reorder_sections_view (p : Profile) (new_order : List String) :
    Except ApiError Profile :=
  if new_order.isEmpty then .error (.badRequest "section_ids array is required")
  else .ok (p.reorder_sections new_order)

/-- The recognized scalar fields and sections payload of
`update_profile_complete` (JSON branch). `sections` models
`request.data.get('sections', [])` (absent key → empty list). -/
structure UpdateCompleteRequest where
  sections : List ProfileSection
  bio : Option String
  location : Option String
  website : Option String
  joined_date : Option Nat
deriving Repr, DecidableEq

/-- The JSON (non-multipart) branch of `update_profile_complete(request)`
(lines 353-368): `if sections_data: profile.sections = sections_data` — a
wholesale, unvalidated overwrite (skipped when the list is empty, by
Python truthiness) — followed by the scalar field updates. -/
def update_profile_complete (p : Profile) (req : UpdateCompleteRequest) :
    Profile :=
  let p1 := if req.sections.isEmpty then p else { p with sections := req.sections }
  let p2 := match req.bio with | some b => { p1 with bio := b } | none => p1
  let p3 := match req.location with | some l => { p2 with location := l } | none => p2
  let p4 := match req.website with | some w => { p3 with website := w } | none => p3
  match req.joined_date with | some d => { p4 with joined_date := some d } | none => p4

/-- The POST branch of `profile_sections_view` (lines 378-404): 400 when
title or content is missing or blank (Python truthiness), otherwise
`profile.add_section(title, content)` returning the new section. -/
def profile_sections_view_post (p : Profile) (newId : String) (now : Nat)
    (title content : String) : Except ApiError (Profile × ProfileSection) :=
  if title == "" || content == "" then
    .error (.badRequest "Title and content are required")
  else
    .ok (p.add_section newId now title content)

/-! ## Concrete objects used in witnesses and counterexamples -/

/-- A sample section with a given id. -/
def exSection (i : String) : ProfileSection :=
  { id := i, title := "T", content := "C", images := [],
    created_at := 0, updated_at := 0 }

/-- A sample profile of user 1 with two sections `s1`, `s2`. -/
def exProfile : Profile :=
  { emptyProfile 1 with sections := [exSection "s1", exSection "s2"] }

/-- An image store with no rows and no stored files. -/
def emptyStore : ImageStore :=
  { rows := [], files := [], nextId := 0, nextTime := 0 }

/-- A row of user 1 under section `s1` with payload 10, pk 0. -/
def rowB10 : SectionImage :=
  { id := 0, profileId := 1, section_id := "s1", image := 10, caption := "",
    created_at := 0 }

/-- Companion row with payload 11, pk 1. -/
def rowB11 : SectionImage :=
  { id := 1, profileId := 1, section_id := "s1", image := 11, caption := "",
    created_at := 1 }

/-- A store holding the single row `rowB10` and its payload file. -/
def storeWithImage : ImageStore :=
  { rows := [rowB10], files := [10], nextId := 1, nextTime := 1 }

/-- The store after uploading `[10, 11]` to section `s1` of `exProfile`
starting from `emptyStore`. -/
def stFirst : ImageStore :=
  { rows := [rowB10, rowB11], files := [10, 11], nextId := 2, nextTime := 2 }

/-- The row created by the follow-up upload of `[12]`. -/
def rowC12 : SectionImage :=
  { id := 2, profileId := 1, section_id := "s1", image := 12, caption := "",
    created_at := 2 }

/-- The store after the follow-up replacing upload of `[12]` on `stFirst`:
only `rowC12` remains as a row; the old payload files linger. -/
def stSecond : ImageStore :=
  { rows := [rowC12], files := [10, 11, 12], nextId := 3, nextTime := 3 }

/-- Row created by a first admin upload of `[20]`. -/
def rowA20 : SectionImage :=
  { id := 0, profileId := 1, section_id := "s1", image := 20, caption := "",
    created_at := 0 }

/-- Store after the first admin upload. -/
def stAdmin1 : ImageStore :=
  { rows := [rowA20], files := [20], nextId := 1, nextTime := 1 }

/-- Row created by a second admin upload of `[21]`. -/
def rowA21 : SectionImage :=
  { id := 1, profileId := 1, section_id := "s1", image := 21, caption := "",
    created_at := 1 }

/-- Store after the second admin upload: both rows present. -/
def stAdmin2 : ImageStore :=
  { rows := [rowA20, rowA21], files := [20, 21], nextId := 2, nextTime := 2 }

/-- Row created by a replacing upload of `[12]` on `storeWithImage`. -/
def rowD12 : SectionImage :=
  { id := 1, profileId := 1, section_id := "s1", image := 12, caption := "",
    created_at := 1 }

/-- Store after that replacing upload: `rowB10` is gone as a row but its
payload file 10 is still in storage (orphaned). -/
def stOrphan : ImageStore :=
  { rows := [rowD12], files := [10, 12], nextId := 2, nextTime := 2 }

/-- A 1000-entry reorder list: 999 copies of `a`, then `x` (so `x` has
rank 999, equal to the absent-id sentinel). -/
def reorderLong : List String := List.replicate 999 "a" ++ ["x"]

/-- Profile whose sections are `z` (absent from `reorderLong`) and `x`. -/
def reorderProfile : Profile :=
  { emptyProfile 1 with sections := [exSection "z", exSection "x"] }

/-- A complete-profile update request carrying two sections with the SAME
id. -/
def dupReq : UpdateCompleteRequest :=
  { sections := [exSection "dup", exSection "dup"], bio := none,
    location := none, website := none, joined_date := none }

/-! ## Lemmas about the stable sort -/

theorem insertByKey_perm (key : α → Nat) (x : α) :
    ∀ l : List α, (insertByKey key x l).Perm (x :: l)
  | [] => List.Perm.refl _
  | y :: ys => by
    by_cases h : key x ≤ key y
    · simp [insertByKey, h]
    · rw [insertByKey, if_neg h]
      exact ((insertByKey_perm key x ys).cons y).trans (List.Perm.swap x y ys)

theorem sortByKey_perm (key : α → Nat) : ∀ l : List α, (sortByKey key l).Perm l
  | [] => List.Perm.refl _
  | x :: xs => (insertByKey_perm key x _).trans ((sortByKey_perm key xs).cons x)

theorem pairwise_insertByKey (key : α → Nat) (x : α) :
    ∀ l : List α, l.Pairwise (fun a b => key a ≤ key b) →
      (insertByKey key x l).Pairwise (fun a b => key a ≤ key b)
  | [], _ => List.pairwise_singleton _ _
  | y :: ys, h => by
    rw [List.pairwise_cons] at h
    by_cases hxy : key x ≤ key y
    · rw [insertByKey, if_pos hxy]
      refine List.Pairwise.cons ?_ (List.Pairwise.cons h.1 h.2)
      intro b hb
      rcases List.mem_cons.1 hb with rfl | hb
      · exact hxy
      · exact le_trans hxy (h.1 b hb)
    · rw [insertByKey, if_neg hxy]
      refine List.Pairwise.cons ?_ (pairwise_insertByKey key x ys h.2)
      intro b hb
      rcases List.mem_cons.1 ((insertByKey_perm key x ys).mem_iff.1 hb) with rfl | hb
      · exact Nat.le_of_lt (Nat.lt_of_not_le hxy)
      · exact h.1 b hb

theorem sortByKey_pairwise (key : α → Nat) :
    ∀ l : List α, (sortByKey key l).Pairwise (fun a b => key a ≤ key b)
  | [] => List.Pairwise.nil
  | x :: xs => pairwise_insertByKey key x _ (sortByKey_pairwise key xs)

theorem filter_insertByKey (key : α → Nat) (k : Nat) (x : α) :
    ∀ l : List α,
      (insertByKey key x l).filter (fun a => key a == k) =
        (x :: l).filter (fun a => key a == k)
  | [] => rfl
  | y :: ys => by
    by_cases hxy : key x ≤ key y
    · rw [insertByKey, if_pos hxy]
    · rw [insertByKey, if_neg hxy]
      have hyx : key y < key x := Nat.lt_of_not_le hxy
      by_cases hy : key y = k
      · have hx : ¬ (key x = k) := by omega
        simp [List.filter_cons, hy, hx, filter_insertByKey key k x ys]
      · simp [List.filter_cons, hy, filter_insertByKey key k x ys]

theorem sortByKey_filter (key : α → Nat) (k : Nat) :
    ∀ l : List α,
      (sortByKey key l).filter (fun a => key a == k) =
        l.filter (fun a => key a == k)
  | [] => rfl
  | x :: xs => by
    rw [sortByKey, filter_insertByKey key k x (sortByKey key xs)]
    simp [List.filter_cons, sortByKey_filter key k xs]

theorem insertByKey_of_le (key : α → Nat) (x : α) :
    ∀ l : List α, (∀ y ∈ l, key x ≤ key y) → insertByKey key x l = x :: l
  | [], _ => rfl
  | y :: ys, h => by
    rw [insertByKey, if_pos (h y (List.mem_cons_self y ys))]

theorem sortByKey_of_pairwise (key : α → Nat) :
    ∀ l : List α, l.Pairwise (fun a b => key a ≤ key b) → sortByKey key l = l
  | [], _ => rfl
  | x :: xs, h => by
    rw [List.pairwise_cons] at h
    rw [sortByKey, sortByKey_of_pairwise key xs h.2]
    exact insertByKey_of_le key x xs h.1

/-! ## Lemmas about the reorder rank map -/

theorem lastIdx?_eq_none (sid : String) :
    ∀ l : List String, sid ∉ l → lastIdx? sid l = none
  | [], _ => rfl
  | a :: l, h => by
    have h1 : sid ∉ l := fun hm => h (List.mem_cons_of_mem a hm)
    have h2 : ¬ (a == sid) = true := by
      simp only [beq_iff_eq]
      intro he
      exact h (he ▸ List.mem_cons_self a l)
    simp [lastIdx?, lastIdx?_eq_none sid l h1, h2]

theorem lastIdx?_lt (sid : String) :
    ∀ (l : List String) (i : Nat), lastIdx? sid l = some i → i < l.length
  | [], i, h => by simp [lastIdx?] at h
  | a :: l, i, h => by
    rw [lastIdx?] at h
    cases hrec : lastIdx? sid l with
    | some j =>
      rw [hrec] at h
      cases h
      exact Nat.succ_lt_succ (lastIdx?_lt sid l j hrec)
    | none =>
      rw [hrec] at h
      by_cases ha : (a == sid) = true
      · rw [if_pos ha] at h
        cases h
        exact Nat.succ_pos _
      · rw [if_neg ha] at h
        cases h

theorem lastIdx?_isSome (sid : String) :
    ∀ l : List String, sid ∈ l → (lastIdx? sid l).isSome = true
  | [], h => absurd h (List.not_mem_nil sid)
  | a :: l, h => by
    rw [lastIdx?]
    cases hrec : lastIdx? sid l with
    | some j => rfl
    | none =>
      have hnl : sid ∉ l := by
        intro hm
        have hs := lastIdx?_isSome sid l hm
        rw [hrec] at hs
        cases hs
      have ha : a = sid := by
        rcases List.mem_cons.1 h with rfl | hm
        · rfl
        · exact absurd hm hnl
      simp [ha]

theorem orderMapGet_lt_of_mem (order : List String) (sid : String)
    (h : sid ∈ order) (hlen : order.length ≤ 999) :
    orderMapGet order sid < 999 := by
  rw [orderMapGet]
  cases hidx : lastIdx? sid order with
  | none =>
    have hs := lastIdx?_isSome sid order h
    rw [hidx] at hs
    cases hs
  | some i =>
    have := lastIdx?_lt sid order i hidx
    simpa using Nat.lt_of_lt_of_le this hlen

theorem orderMapGet_eq_999_of_not_mem (order : List String) (sid : String)
    (h : sid ∉ order) : orderMapGet order sid = 999 := by
  rw [orderMapGet, lastIdx?_eq_none sid order h]
  rfl

/-! ## Lemmas about the image-creation loop -/

theorem createRows_rows (pid : Nat) (sid : String) (captions : List String) :
    ∀ (st : ImageStore) (i : Nat) (images : List Nat),
      (createRows pid sid captions st i images).1.rows =
        st.rows ++ (createRows pid sid captions st i images).2
  | st, i, [] => by simp [createRows]
  | st, i, img :: rest => by
    simp only [createRows, ImageStore.createImage]
    rw [createRows_rows pid sid captions _ (i + 1) rest]
    simp

theorem createRows_files (pid : Nat) (sid : String) (captions : List String) :
    ∀ (st : ImageStore) (i : Nat) (images : List Nat),
      (createRows pid sid captions st i images).1.files = st.files ++ images
  | st, i, [] => by simp [createRows]
  | st, i, img :: rest => by
    simp only [createRows, ImageStore.createImage]
    rw [createRows_files pid sid captions _ (i + 1) rest]
    simp

theorem createRows_map_image (pid : Nat) (sid : String) (captions : List String) :
    ∀ (st : ImageStore) (i : Nat) (images : List Nat),
      (createRows pid sid captions st i images).2.map (fun r => r.image) = images
  | st, i, [] => by simp [createRows]
  | st, i, img :: rest => by
    simp only [createRows, ImageStore.createImage, List.map_cons]
    rw [createRows_map_image pid sid captions _ (i + 1) rest]

theorem createRows_mem (pid : Nat) (sid : String) (captions : List String) :
    ∀ (st : ImageStore) (i : Nat) (images : List Nat),
      ∀ r ∈ (createRows pid sid captions st i images).2,
        r.profileId = pid ∧ r.section_id = sid ∧ st.nextTime ≤ r.created_at
  | st, i, [], r, hr => by simp [createRows] at hr
  | st, i, img :: rest, r, hr => by
    simp only [createRows, ImageStore.createImage, List.mem_cons] at hr
    rcases hr with rfl | hr
    · exact ⟨rfl, rfl, Nat.le_refl _⟩
    · have h := createRows_mem pid sid captions _ (i + 1) rest r hr
      exact ⟨h.1, h.2.1, Nat.le_of_succ_le h.2.2⟩

theorem createRows_pairwise (pid : Nat) (sid : String) (captions : List String) :
    ∀ (st : ImageStore) (i : Nat) (images : List Nat),
      ((createRows pid sid captions st i images).2).Pairwise
        (fun a b => a.created_at ≤ b.created_at)
  | st, i, [] => by simp [createRows]
  | st, i, img :: rest => by
    simp only [createRows, ImageStore.createImage]
    refine List.Pairwise.cons ?_ (createRows_pairwise pid sid captions _ (i + 1) rest)
    intro b hb
    exact Nat.le_of_succ_le (createRows_mem pid sid captions _ (i + 1) rest b hb).2.2

theorem createRows_length (pid : Nat) (sid : String) (captions : List String)
    (st : ImageStore) (i : Nat) (images : List Nat) :
    (createRows pid sid captions st i images).2.length = images.length := by
  have h := congrArg List.length (createRows_map_image pid sid captions st i images)
  simpa using h

theorem createRows_map_caption (pid : Nat) (sid : String) (captions : List String) :
    ∀ (st : ImageStore) (i : Nat) (images : List Nat),
      (createRows pid sid captions st i images).2.map (fun r => r.caption) =
        (List.range images.length).map (fun j => captions.getD (i + j) "")
  | st, i, [] => by simp [createRows]
  | st, i, img :: rest => by
    simp only [createRows, ImageStore.createImage, List.map_cons]
    rw [createRows_map_caption pid sid captions _ (i + 1) rest]
    rw [List.length_cons, List.range_succ_eq_map, List.map_cons, List.map_map]
    simp only [Nat.add_zero]
    congr 1
    apply List.map_congr_left
    intro a _
    have hia : i + 1 + a = i + (a + 1) := by omega
    simp [Function.comp, hia]

/-! ## Miscellaneous store lemmas -/

theorem bulkDeleteRows_imagesFor (st : ImageStore) (pid : Nat) (sid : String) :
    (st.bulkDeleteRows pid sid).imagesFor pid sid = [] := by
  simp only [ImageStore.bulkDeleteRows, ImageStore.imagesFor, List.filter_filter]
  apply List.filter_eq_nil_iff.2
  intro r _
  cases hp : (r.profileId == pid && r.section_id == sid) <;> simp [hp]

theorem imagesFor_append (rows1 rows2 : List SectionImage) (files : List Nat)
    (nid nt : Nat) (pid : Nat) (sid : String) :
    (ImageStore.imagesFor ⟨rows1 ++ rows2, files, nid, nt⟩ pid sid) =
      (ImageStore.imagesFor ⟨rows1, files, nid, nt⟩ pid sid) ++
        (ImageStore.imagesFor ⟨rows2, files, nid, nt⟩ pid sid) := by
  simp [ImageStore.imagesFor, List.filter_append]


/-! ## Lemmas about profile operations -/

theorem updateFirstSection_map_id (section_id : String)
    (title? content? : Option String) (now : Nat) :
    ∀ (l l' : List ProfileSection) (s : ProfileSection),
      updateFirstSection section_id title? content? now l = some (l', s) →
      l'.map (fun x => x.id) = l.map (fun x => x.id)
  | [], l', s, h => by simp [updateFirstSection] at h
  | x :: rest, l', s, h => by
    rw [updateFirstSection] at h
    by_cases hx : (x.id == section_id) = true
    · rw [if_pos hx] at h
      injection h with h1
      cases h1
      simp
    · rw [if_neg hx] at h
      cases hrec : updateFirstSection section_id title? content? now rest with
      | some q =>
        rw [hrec] at h
        injection h with h1
        cases h1
        simp only [List.map_cons]
        rw [updateFirstSection_map_id section_id title? content? now rest q.1 q.2 hrec]
      | none =>
        rw [hrec] at h
        cases h

theorem create_default_sections_sections (p : Profile) (ids : Nat → String)
    (now : Nat) :
    ((p.create_default_sections ids now).1).sections =
      (p.create_default_sections ids now).2 := rfl

theorem create_default_sections_map_id (p : Profile) (ids : Nat → String)
    (now : Nat) :
    ((p.create_default_sections ids now).2).map (fun s => s.id) =
      (List.range 6).map ids := rfl

theorem create_default_sections_ids_nodup (p : Profile) (ids : Nat → String)
    (now : Nat) (hinj : ∀ i < 6, ∀ j < 6, ids i = ids j → i = j) :
    (((p.create_default_sections ids now).1).sections.map (fun s => s.id)).Nodup := by
  rw [create_default_sections_sections, create_default_sections_map_id]
  exact (List.nodup_range 6).map_on
    (fun x hx y hy he => hinj x (List.mem_range.1 hx) y (List.mem_range.1 hy) he)

/-! ## Inversion lemmas for the upload handlers -/

theorem upload_section_images_ok (p : Profile) (st : ImageStore)
    (section_id : String) (images : List Nat) (captions : List String)
    (s : ProfileSection) (hs : p.get_section_by_id section_id = some s)
    (hne : images ≠ []) :
    upload_section_images p st section_id images captions =
      .ok ((createRows p.userId section_id captions
              (st.bulkDeleteRows p.userId section_id) 0 images).1,
           (createRows p.userId section_id captions
              (st.bulkDeleteRows p.userId section_id) 0 images).2) := by
  rw [upload_section_images, hs]
  simp only [List.isEmpty_iff]
  rw [if_neg hne]

theorem admin_upload_ok (p : Profile) (st : ImageStore)
    (section_id : String) (images : List Nat) (captions : List String)
    (s : ProfileSection) (hs : p.get_section_by_id section_id = some s)
    (hne : images ≠ []) :
    admin_upload_user_section_images p st section_id images captions =
      .ok ((createRows p.userId section_id captions st 0 images).1,
           sortByKey (fun r => r.created_at)
             (((createRows p.userId section_id captions st 0 images).1).imagesFor
               p.userId section_id)) := by
  rw [admin_upload_user_section_images, hs]
  simp only [List.isEmpty_iff]
  rw [if_neg hne]

/-! ## Claim theorems -/

/-- C3 (amended): for every profile and every list of at most 999 section
identifiers given to Reorder, the resulting section list is a permutation
of the prior one, sorted by each section's rank (the position — last
occurrence — of its identifier in the given list, or the sentinel 999 when
absent); sections of equal rank — in particular all omitted ones — keep
their prior relative order; identifiers occurring in the given list rank
strictly below the sentinel, so supplied sections come before all omitted
ones.  (The 999-length bound is forced by the sentinel rank 999 used in
the source, see the counterexample.) -/
theorem claim_C3_theorem (p : Profile) (new_order : List String)
    (hlen : new_order.length ≤ 999) :
    ((p.reorder_sections new_order).sections).Perm p.sections ∧
    ((p.reorder_sections new_order).sections).Pairwise
      (fun a b => orderMapGet new_order a.id ≤ orderMapGet new_order b.id) ∧
    (∀ k : Nat, ((p.reorder_sections new_order).sections).filter
        (fun s => orderMapGet new_order s.id == k) =
      p.sections.filter (fun s => orderMapGet new_order s.id == k)) ∧
    (∀ s : ProfileSection,
      (s.id ∈ new_order → orderMapGet new_order s.id < 999) ∧
      (s.id ∉ new_order → orderMapGet new_order s.id = 999)) :=
  ⟨sortByKey_perm _ _, sortByKey_pairwise _ _,
   fun k => sortByKey_filter _ k _,
   fun s => ⟨fun hm => orderMapGet_lt_of_mem new_order s.id hm hlen,
             fun hm => orderMapGet_eq_999_of_not_mem new_order s.id hm⟩⟩

/-- Witness for C3 at the concrete reorder `["s2", "s1"]` of `exProfile`. -/
theorem claim_C3_witness :
    ((exProfile.reorder_sections ["s2", "s1"]).sections).Perm exProfile.sections ∧
    ((exProfile.reorder_sections ["s2", "s1"]).sections).Pairwise
      (fun a b => orderMapGet ["s2", "s1"] a.id ≤ orderMapGet ["s2", "s1"] b.id) ∧
    (∀ k : Nat, ((exProfile.reorder_sections ["s2", "s1"]).sections).filter
        (fun s => orderMapGet ["s2", "s1"] s.id == k) =
      exProfile.sections.filter (fun s => orderMapGet ["s2", "s1"] s.id == k)) ∧
    (∀ s : ProfileSection,
      (s.id ∈ ["s2", "s1"] → orderMapGet ["s2", "s1"] s.id < 999) ∧
      (s.id ∉ ["s2", "s1"] → orderMapGet ["s2", "s1"] s.id = 999)) :=
  claim_C3_theorem exProfile ["s2", "s1"] (by decide)

set_option maxRecDepth 200000 in
/-- Counterexample to C3 as stated: with the 1000-entry reorder list
`reorderLong` (999 copies of `a` followed by `x`), the section with id `x`
— which appears in the list — does not precede the omitted section `z`:
the result keeps `z` first, because the rank of `x` (999) collides with the
absent-id sentinel. -/
theorem claim_C3_counterexample :
    "x" ∈ reorderLong ∧ "z" ∉ reorderLong ∧
      (reorderProfile.reorder_sections reorderLong).sections.map (fun s => s.id) =
        ["z", "x"] := by decide

/-- C10: for every profile and non-empty identifier list — including lists
containing identifiers that occur nowhere in the profile (accepted without
error) — the reorder view succeeds and the resulting section list is a
permutation of the prior one: no section added, removed, or modified in
any field. -/
theorem claim_C10_theorem (p : Profile) (new_order : List String)
    (h : new_order ≠ []) :
    reorder_sections_view p new_order = .ok (p.reorder_sections new_order) ∧
      ((p.reorder_sections new_order).sections).Perm p.sections := by
  constructor
  · rw [reorder_sections_view]
    simp only [List.isEmpty_iff]
    rw [if_neg h]
  · exact sortByKey_perm _ _

/-- Witness for C10 with an identifier (`nope`) occurring nowhere in the
profile. -/
theorem claim_C10_witness :
    reorder_sections_view exProfile ["nope"] =
      .ok (exProfile.reorder_sections ["nope"]) ∧
      ((exProfile.reorder_sections ["nope"]).sections).Perm exProfile.sections :=
  claim_C10_theorem exProfile ["nope"] (by decide)

/-- C1 (amended): a caption list whose length differs from the image list
is NOT rejected by either section-image upload endpoint.  Both accept any
captions list when the section exists and at least one image is supplied:
caption i is paired with image i, missing captions default to the empty
string, and surplus captions are silently ignored; one row per image is
created (so 2 images with 3 captions create 2 rows, not zero). -/
theorem claim_C1_theorem (p : Profile) (st : ImageStore) (section_id : String)
    (images : List Nat) (captions : List String) (s : ProfileSection)
    (hs : p.get_section_by_id section_id = some s) (hne : images ≠ []) :
    (∃ st1 created,
      upload_section_images p st section_id images captions = .ok (st1, created) ∧
      created.length = images.length ∧
      created.map (fun r => r.caption) =
        (List.range images.length).map (fun j => captions.getD j "")) ∧
    (∃ st2 ret,
      admin_upload_user_section_images p st section_id images captions = .ok (st2, ret) ∧
      st2.rows.length = st.rows.length + images.length) := by
  constructor
  · refine ⟨_, _, upload_section_images_ok p st section_id images captions s hs hne,
      createRows_length _ _ _ _ _ _, ?_⟩
    have h := createRows_map_caption p.userId section_id captions
      (st.bulkDeleteRows p.userId section_id) 0 images
    simpa using h
  · refine ⟨_, _, admin_upload_ok p st section_id images captions s hs hne, ?_⟩
    rw [createRows_rows]
    simp [createRows_length]

/-- Witness for C1: 2 images, 1 caption — accepted, 2 rows created. -/
theorem claim_C1_witness :
    (∃ st1 created,
      upload_section_images exProfile emptyStore "s1" [10, 11] ["only-one"] =
        .ok (st1, created) ∧
      created.length = [10, 11].length ∧
      created.map (fun r => r.caption) =
        (List.range [10, 11].length).map (fun j => ["only-one"].getD j "")) ∧
    (∃ st2 ret,
      admin_upload_user_section_images exProfile emptyStore "s1" [10, 11] ["only-one"] =
        .ok (st2, ret) ∧
      st2.rows.length = emptyStore.rows.length + [10, 11].length) :=
  claim_C1_theorem exProfile emptyStore "s1" [10, 11] ["only-one"]
    (exSection "s1") (by decide) (by decide)

/-- Counterexample to C1 as stated: uploading 2 images with 3 captions is
NOT rejected — both endpoints succeed and create 2 rows (the claim says a
validation error with zero rows). -/
theorem claim_C1_counterexample :
    (upload_section_images exProfile emptyStore "s1" [10, 11]
        ["c1", "c2", "c3"]).toOption.map (fun q => q.1.rows.length) = some 2 ∧
    (admin_upload_user_section_images exProfile emptyStore "s1" [10, 11]
        ["c1", "c2", "c3"]).toOption.map (fun q => q.1.rows.length) = some 2 := by
  decide

/-- C6: a successful self-service upload to section S leaves the rows for
(profile, S) being exactly the newly created rows — all prior rows for the
pair are deleted — one row per supplied image, in order. -/
theorem claim_C6_theorem (p : Profile) (st : ImageStore) (section_id : String)
    (images : List Nat) (captions : List String) (st1 : ImageStore)
    (created : List SectionImage)
    (h : upload_section_images p st section_id images captions = .ok (st1, created)) :
    st1.imagesFor p.userId section_id = created ∧
      created.map (fun r => r.image) = images := by
  cases hs : p.get_section_by_id section_id with
  | none => rw [upload_section_images, hs] at h; cases h
  | some s =>
    by_cases hne : images = []
    · subst hne
      rw [upload_section_images, hs] at h
      simp at h
    · rw [upload_section_images_ok p st section_id images captions s hs hne] at h
      injection h with h1
      cases h1
      constructor
      · have hr := createRows_rows p.userId section_id captions
          (st.bulkDeleteRows p.userId section_id) 0 images
        have h0 := bulkDeleteRows_imagesFor st p.userId section_id
        simp only [ImageStore.imagesFor] at h0 ⊢
        rw [hr, List.filter_append, h0, List.nil_append]
        apply List.filter_eq_self.2
        intro r hr2
        have hm := createRows_mem p.userId section_id captions
          (st.bulkDeleteRows p.userId section_id) 0 images r hr2
        simp [hm.1, hm.2.1]
      · exact createRows_map_image _ _ _ _ _ _

/-- Witness for C6: uploading `[10, 11]` then `[12]` to section `s1`
leaves exactly the single image 12 attached. -/
theorem claim_C6_witness :
    upload_section_images exProfile emptyStore "s1" [10, 11] [] =
      .ok (stFirst, [rowB10, rowB11]) ∧
    upload_section_images exProfile stFirst "s1" [12] [] =
      .ok (stSecond, [rowC12]) ∧
    stSecond.imagesFor 1 "s1" = [rowC12] ∧
    ([rowC12] : List SectionImage).map (fun r => r.image) = [12] :=
  ⟨by rfl, by rfl,
   (claim_C6_theorem exProfile stFirst "s1" [12] [] stSecond [rowC12] (by rfl)).1,
   (claim_C6_theorem exProfile stFirst "s1" [12] [] stSecond [rowC12] (by rfl)).2⟩

/-- C7: a successful admin upload to section S appends one row per
supplied image, in order, deleting nothing (prior rows are a prefix of the
result, files only grow), and returns the full image set for S after
insertion ordered by creation time: the prior set followed by the new
rows. -/
theorem claim_C7_theorem (p : Profile) (st : ImageStore) (section_id : String)
    (images : List Nat) (captions : List String) (st2 : ImageStore)
    (ret : List SectionImage) (hwf : st.WF)
    (h : admin_upload_user_section_images p st section_id images captions =
      .ok (st2, ret)) :
    st2.rows = st.rows ++ st2.rows.drop st.rows.length ∧
    (st2.rows.drop st.rows.length).map (fun r => r.image) = images ∧
    st2.files = st.files ++ images ∧
    ret = st.imagesFor p.userId section_id ++ st2.rows.drop st.rows.length := by
  cases hs : p.get_section_by_id section_id with
  | none => rw [admin_upload_user_section_images, hs] at h; cases h
  | some s =>
    by_cases hne : images = []
    · subst hne
      rw [admin_upload_user_section_images, hs] at h
      simp at h
    · rw [admin_upload_ok p st section_id images captions s hs hne] at h
      injection h with h1
      cases h1
      have hr := createRows_rows p.userId section_id captions st 0 images
      have hdrop : (createRows p.userId section_id captions st 0 images).1.rows.drop
          st.rows.length = (createRows p.userId section_id captions st 0 images).2 := by
        rw [hr]
        exact List.drop_left _ _
      have hfor : (createRows p.userId section_id captions st 0 images).1.imagesFor
          p.userId section_id =
          st.imagesFor p.userId section_id ++
            (createRows p.userId section_id captions st 0 images).2 := by
        simp only [ImageStore.imagesFor]
        rw [hr, List.filter_append]
        congr 1
        apply List.filter_eq_self.2
        intro r hr2
        have hm := createRows_mem p.userId section_id captions st 0 images r hr2
        simp [hm.1, hm.2.1]
      refine ⟨?_, ?_, ?_, ?_⟩
      · rw [hdrop, hr]
      · rw [hdrop]
        exact createRows_map_image _ _ _ _ _ _
      · exact createRows_files _ _ _ _ _ _
      · rw [hdrop, hfor]
        apply sortByKey_of_pairwise
        rw [List.pairwise_append]
        refine ⟨hwf.1.filter _, createRows_pairwise _ _ _ _ _ _, ?_⟩
        intro a ha b hb
        have ha2 : a ∈ st.rows := List.mem_of_mem_filter ha
        have hb2 := createRows_mem p.userId section_id captions st 0 images b hb
        exact Nat.le_trans (Nat.le_of_lt (hwf.2 a ha2)) hb2.2.2

/-- Witness for C7: two admin uploads `[20]` then `[21]` leave both rows
attached, the second returning `[rowA20, rowA21]` in creation order. -/
theorem claim_C7_witness :
    admin_upload_user_section_images exProfile stAdmin1 "s1" [21] [] =
      .ok (stAdmin2, [rowA20, rowA21]) ∧
    stAdmin2.rows = stAdmin1.rows ++ stAdmin2.rows.drop stAdmin1.rows.length ∧
    (stAdmin2.rows.drop stAdmin1.rows.length).map (fun r => r.image) = [21] ∧
    stAdmin2.files = stAdmin1.files ++ [21] ∧
    ([rowA20, rowA21] : List SectionImage) =
      stAdmin1.imagesFor 1 "s1" ++ stAdmin2.rows.drop stAdmin1.rows.length :=
  ⟨by rfl,
   (claim_C7_theorem exProfile stAdmin1 "s1" [21] [] stAdmin2 [rowA20, rowA21]
     (by constructor <;> decide) (by rfl)).1,
   (claim_C7_theorem exProfile stAdmin1 "s1" [21] [] stAdmin2 [rowA20, rowA21]
     (by constructor <;> decide) (by rfl)).2.1,
   (claim_C7_theorem exProfile stAdmin1 "s1" [21] [] stAdmin2 [rowA20, rowA21]
     (by constructor <;> decide) (by rfl)).2.2.1,
   (claim_C7_theorem exProfile stAdmin1 "s1" [21] [] stAdmin2 [rowA20, rowA21]
     (by constructor <;> decide) (by rfl)).2.2.2⟩

theorem update_profile_complete_sections (p : Profile)
    (req : UpdateCompleteRequest) :
    (update_profile_complete p req).sections =
      if req.sections.isEmpty then p.sections else req.sections := by
  rcases req with ⟨secs, bio, loc, web, jd⟩
  rw [update_profile_complete]
  cases bio <;> cases loc <;> cases web <;> cases jd <;>
    cases he : secs.isEmpty <;> simp [he]

/-- C2 (amended): the default-section bootstrap runs when a User is
created (the `post_save` signal creates the Profile and immediately its
six canonical sections, with non-empty pairwise-distinct generated ids and
empty image lists) — but NOT when a view's `get_or_create` creates a
missing Profile: such a Profile starts with an empty section list. -/
theorem claim_C2_theorem (userId : Nat) (ids : Nat → String) (now : Nat)
    (hinj : ∀ i < 6, ∀ j < 6, ids i = ids j → i = j)
    (hne : ∀ i < 6, ids i ≠ "") :
    (create_user_profile userId ids now).sections.length = 6 ∧
    (create_user_profile userId ids now).sections.map (fun s => s.title) =
      ["Early Childhood", "Family", "Education", "Society & Community",
       "Professional Experience", "Story Telling"] ∧
    ((create_user_profile userId ids now).sections.map (fun s => s.id)).Nodup ∧
    (∀ s ∈ (create_user_profile userId ids now).sections,
      s.id ≠ "" ∧ s.images = []) ∧
    (∀ (db : List Profile) (u : Nat), (getOrCreateProfile db u).2.2 = true →
      (getOrCreateProfile db u).2.1.sections = []) := by
  refine ⟨rfl, rfl, ?_, ?_, ?_⟩
  · exact create_default_sections_ids_nodup (emptyProfile userId) ids now hinj
  · intro s hs
    constructor
    · have h1 : s.id ∈ (create_user_profile userId ids now).sections.map
          (fun t => t.id) := List.mem_map_of_mem _ hs
      have h2 : s.id ∈ (List.range 6).map ids := h1
      obtain ⟨k, hk, hkeq⟩ := List.mem_map.1 h2
      rw [← hkeq]
      exact hne k (List.mem_range.1 hk)
    · have h1 : s.images ∈ (create_user_profile userId ids now).sections.map
          (fun t => t.images) := List.mem_map_of_mem _ hs
      have h2 : s.images ∈ List.replicate 6 ([] : List String) := h1
      exact List.eq_of_mem_replicate h2
  · intro db u hc
    rw [getOrCreateProfile] at hc ⊢
    cases hf : db.find? (fun q => q.userId == u) with
    | some p2 =>
      rw [hf] at hc
      exact Bool.noConfusion hc
    | none => rfl

/-- Witness for C2 with the concrete id supply `u0, u1, ...`. -/
theorem claim_C2_witness :
    (create_user_profile 7 (fun n => "u" ++ toString n) 5).sections.length = 6 ∧
    (create_user_profile 7 (fun n => "u" ++ toString n) 5).sections.map
        (fun s => s.title) =
      ["Early Childhood", "Family", "Education", "Society & Community",
       "Professional Experience", "Story Telling"] ∧
    ((create_user_profile 7 (fun n => "u" ++ toString n) 5).sections.map
        (fun s => s.id)).Nodup ∧
    (∀ s ∈ (create_user_profile 7 (fun n => "u" ++ toString n) 5).sections,
      s.id ≠ "" ∧ s.images = []) ∧
    (∀ (db : List Profile) (u : Nat), (getOrCreateProfile db u).2.2 = true →
      (getOrCreateProfile db u).2.1.sections = []) :=
  claim_C2_theorem 7 (fun n => "u" ++ toString n) 5 (by decide) (by decide)

/-- Counterexample to C2 as stated: the get-or-create accessor, creating a
Profile where none exists, yields a profile with an EMPTY section list
(not 6 bootstrapped sections) — the bootstrap signal is tied to User
creation, not to Profile creation. -/
theorem claim_C2_counterexample :
    (getOrCreateProfile [] 1).2.2 = true ∧
    (getOrCreateProfile [] 1).2.1.sections = [] ∧
    ¬ (getOrCreateProfile [] 1).2.1.sections.length = 6 := by decide

/-- C5 (amended): Add (with a fresh generated id), Update, Delete, Reorder
and ResetToDefault (with pairwise-distinct generated ids) preserve
uniqueness of section ids; ReplaceAll (the complete-profile update)
installs the client-supplied list verbatim, so it preserves uniqueness
only when the supplied list itself has pairwise-distinct ids. -/
theorem claim_C5_theorem :
    (∀ (p : Profile) (newId : String) (now : Nat) (t c : String),
      (p.sections.map (fun s => s.id)).Nodup →
      newId ∉ p.sections.map (fun s => s.id) →
      (((p.add_section newId now t c).1).sections.map (fun s => s.id)).Nodup) ∧
    (∀ (p : Profile) (sid : String) (title? content? : Option String) (now : Nat)
      (q : Profile × ProfileSection),
      (p.sections.map (fun s => s.id)).Nodup →
      p.update_section sid title? content? now = some q →
      (q.1.sections.map (fun s => s.id)).Nodup) ∧
    (∀ (p : Profile) (sid : String),
      (p.sections.map (fun s => s.id)).Nodup →
      ((p.delete_section sid).sections.map (fun s => s.id)).Nodup) ∧
    (∀ (p : Profile) (new_order : List String),
      (p.sections.map (fun s => s.id)).Nodup →
      ((p.reorder_sections new_order).sections.map (fun s => s.id)).Nodup) ∧
    (∀ (p : Profile) (ids : Nat → String) (now : Nat),
      (∀ i < 6, ∀ j < 6, ids i = ids j → i = j) →
      (((p.reset_to_default_sections ids now).1).sections.map (fun s => s.id)).Nodup) ∧
    (∀ (p : Profile) (req : UpdateCompleteRequest),
      (p.sections.map (fun s => s.id)).Nodup →
      (req.sections.map (fun s => s.id)).Nodup →
      ((update_profile_complete p req).sections.map (fun s => s.id)).Nodup) := by
  refine ⟨?_, ?_, ?_, ?_, ?_, ?_⟩
  · intro p newId now t c hnd hmem
    have hsec : ((p.add_section newId now t c).1).sections.map (fun s => s.id) =
        p.sections.map (fun s => s.id) ++ [newId] := by
      simp [Profile.add_section]
    rw [hsec, List.nodup_append]
    refine ⟨hnd, List.nodup_singleton _, fun a ha hb => ?_⟩
    rw [List.mem_singleton] at hb
    subst hb
    exact hmem ha
  · intro p sid title? content? now q hnd hupd
    rw [Profile.update_section] at hupd
    cases hfind : updateFirstSection sid title? content? now p.sections with
    | none =>
      rw [hfind] at hupd
      cases hupd
    | some q2 =>
      rw [hfind] at hupd
      injection hupd with h1
      cases h1
      have hmap := updateFirstSection_map_id sid title? content? now
        p.sections q2.1 q2.2 hfind
      show ((q2.1).map (fun s => s.id)).Nodup
      rw [hmap]
      exact hnd
  · intro p sid hnd
    have hsub : ((p.delete_section sid).sections.map (fun s => s.id)).Sublist
        (p.sections.map (fun s => s.id)) :=
      (List.filter_sublist p.sections).map (fun s => s.id)
    exact hsub.nodup hnd
  · intro p new_order hnd
    have hperm := (sortByKey_perm (fun s => orderMapGet new_order s.id)
      p.sections).map (fun s => s.id)
    exact hperm.nodup_iff.2 hnd
  · intro p ids now hinj
    exact create_default_sections_ids_nodup p ids now hinj
  · intro p req hnd hreq
    rw [update_profile_complete_sections]
    cases he : req.sections.isEmpty
    · rw [if_neg (by simp [he])]
      exact hreq
    · rw [if_pos (by simp [he])]
      exact hnd

/-- Witness for C5: adding a fresh-id section to `exProfile` keeps ids
unique. -/
theorem claim_C5_witness :
    (((exProfile.add_section "s3" 9 "T" "C").1).sections.map
      (fun s => s.id)).Nodup :=
  claim_C5_theorem.1 exProfile "s3" 9 "T" "C" (by decide) (by decide)

/-- Counterexample to C5 as stated: the complete-profile update (the
ReplaceAll operation the claim includes) installs a client list with a
duplicated id verbatim, breaking uniqueness from a unique (empty)
starting list. -/
theorem claim_C5_counterexample :
    ((emptyProfile 1).sections.map (fun s => s.id)).Nodup ∧
    ¬ ((update_profile_complete (emptyProfile 1) dupReq).sections.map
        (fun s => s.id)).Nodup := by decide

/-- C8: deleting an existing section removes exactly the entries with that
identifier from the profile's section list and returns the image store
UNCHANGED (the same `st` appears in the result), so SectionImage rows
tagged with the deleted identifier survive and a subsequent query under
that identifier still returns them (orphaned). -/
theorem claim_C8_theorem (p : Profile) (st : ImageStore) (section_id : String)
    (s : ProfileSection) (hs : p.get_section_by_id section_id = some s) :
    profile_section_detail_delete p st section_id =
      .ok (p.delete_section section_id, st) ∧
    (p.delete_section section_id).sections =
      p.sections.filter (fun t => !(t.id == section_id)) := by
  constructor
  · rw [profile_section_detail_delete, hs]
  · rfl

/-- Witness for C8: deleting section `s1` of `exProfile` leaves
`storeWithImage` untouched; its row under `s1` is still returned by the
image query. -/
theorem claim_C8_witness :
    (profile_section_detail_delete exProfile storeWithImage "s1" =
      .ok (exProfile.delete_section "s1", storeWithImage) ∧
    (exProfile.delete_section "s1").sections =
      exProfile.sections.filter (fun t => !(t.id == "s1"))) ∧
    storeWithImage.imagesFor 1 "s1" = [rowB10] :=
  ⟨claim_C8_theorem exProfile storeWithImage "s1" (exSection "s1") (by rfl),
   by rfl⟩

/-- C9: a caption-update or delete request naming an image id with no row
inside the requester's scope (self path: the requester's own profile;
admin path: the named target user and section) is answered with the
not-found error — the `notFound` constructor, never `forbidden` — and no
store is produced, so no state changes. -/
theorem claim_C9_theorem :
    (∀ (st : ImageStore) (requesterId image_id : Nat) (m : Method) (cap : String),
      (∀ r ∈ st.rows, r.id = image_id → r.profileId ≠ requesterId) →
      section_image_detail st requesterId image_id m cap =
        .error (.notFound "Image not found")) ∧
    (∀ (st : ImageStore) (targetUserId : Nat) (section_id : String)
      (image_id : Nat) (m : Method) (cap : String),
      (∀ r ∈ st.rows, r.id = image_id →
        ¬ (r.profileId = targetUserId ∧ r.section_id = section_id)) →
      admin_user_section_image_detail st targetUserId section_id image_id m cap =
        .error (.notFound "Image not found")) := by
  constructor
  · intro st requesterId image_id m cap hscope
    have hfind : st.rows.find?
        (fun r => r.id == image_id && r.profileId == requesterId) = none := by
      apply List.find?_eq_none.2
      intro r hr
      simp only [Bool.and_eq_true, beq_iff_eq, not_and]
      intro h1 h2
      exact hscope r hr h1 h2
    rw [section_image_detail, hfind]
  · intro st targetUserId section_id image_id m cap hscope
    have hfind : st.rows.find? (fun r => r.id == image_id &&
        r.profileId == targetUserId && r.section_id == section_id) = none := by
      apply List.find?_eq_none.2
      intro r hr
      simp only [Bool.and_eq_true, beq_iff_eq, not_and]
      intro h1 h2
      exact hscope r hr h1.1 ⟨h1.2, h2⟩
    rw [admin_user_section_image_detail, hfind]

/-- Witness for C9: user 2 requesting a caption update of the image owned
by the profile of user 1 gets not-found. -/
theorem claim_C9_witness :
    section_image_detail storeWithImage 2 0 Method.put "hacked" =
      .error (.notFound "Image not found") :=
  claim_C9_theorem.1 storeWithImage 2 0 Method.put "hacked" (by decide)

/-- C4 (code bug): the replace-upload deletes the existing SectionImage
rows of the target section with a queryset delete, which does not remove
their binary payloads from storage.  Concretely, replacing the single
image (payload 10) of section `s1` with payload 12 succeeds and leaves
payload 10 present in file storage with no row referencing it (an
orphan).  By contrast the single-image DELETE endpoint removes payload
and row together, as the claim demands. -/
theorem claim_C4_theorem :
    upload_section_images exProfile storeWithImage "s1" [12] [] =
      .ok (stOrphan, [rowD12]) ∧
    10 ∈ stOrphan.files ∧
    stOrphan.rows.all (fun r => !(r.image == 10)) = true ∧
    section_image_detail storeWithImage 1 0 Method.delete "" =
      .ok ({ rows := [], files := [], nextId := 1, nextTime := 1 }, none) :=
  ⟨by rfl, by decide, by decide, by rfl⟩
